import Mathlib

/-!
Verification development for the Inventory-System backend (FastAPI/SQLAlchemy).

This file shallowly embeds the pricing-resolution engine
(`app/services/pricing.py`), the sale transaction routes
(`app/routes/sale.py`), the purchase-order routes
(`app/routes/purchase_order.py`) and the category cascade
(`app/routes/category.py`) as executable Lean definitions, and proves
properties of them.

Modelling conventions:
* Monetary values (Python `float` / `Decimal` columns) are modelled as `ℚ`.
  All concrete inputs used in theorems are exact cent values, where rational
  arithmetic agrees with the Python arithmetic.
* Python `round(x, 2)` is modelled by `round2` (round half to even on the
  exact rational, matching CPython's behaviour on values that are exact
  multiples of a cent — the only values the theorems evaluate it on).
* Database rows are records; a table is a `List` of rows; the SQLAlchemy
  session is explicit state passing.  Primary-key uniqueness of `id`
  columns is a database invariant, so mutating the row object returned by
  a `filter(... id == ...)` query is modelled by mapping over the rows
  with a matching `id`.
* A raised `HTTPException`, `ValueError` or `AttributeError` is an
  `Except.error`; the `try/except: db.rollback(); raise` wrapper of every
  route means an error leaves the store untouched, which `run_create_sale`
  and `run_update_sale` make explicit.
* The pydantic `SaleCreate` schema defines no `payment_type` field while
  both sale handlers read one, so `create_sale` and `update_sale` raise
  `AttributeError` (routes/sale.py lines 98 and 172) on every request
  that reaches those lines; the embedding reflects that.
-/

namespace Inventory

/-- Monetary amounts (Python floats holding dollar values). -/
abbrev Money : Type := ℚ

/-- Floor of a rational as an integer, via flooring integer division. -/
def qfloor (q : ℚ) : ℤ := Int.fdiv q.num (q.den : ℤ)

/-- Round half to even to an integer, as CPython's `round` does on exact
decimal values. -/
def round_half_even (x : ℚ) : ℤ :=
  let f := qfloor x
  let frac := x - (f : ℚ)
  if frac < 1/2 then f
  else if 1/2 < frac then f + 1
  else if f % 2 = 0 then f else f + 1

/-- Model of Python `round(x, 2)`. -/
def round2 (q : ℚ) : ℚ := ((round_half_even (q * 100) : ℤ) : ℚ) / 100

/-- A value is a whole number of cents (the realistic domain of money
columns; on these `round2` is the identity). -/
def is_cents (q : ℚ) : Prop := ∃ n : ℤ, q = (n : ℚ) / 100

/-- Row of `category_purchase_tiers` (`app/models/purchase_tier.py`):
`threshold` is the inclusive minimum quantity, `price` the unit purchase
cost at/above it. -/
structure PurchaseTier where
  threshold : ℤ
  price : Money
deriving DecidableEq, Repr

/-- A `Category` row together with its loaded relationships
(`app/models/category.py`): the `purchase_tiers` collection and the
`parent` self-reference.  The ORM object graph is cycle-free (trees are
enforced at write time), so the parent chain is represented inductively. -/
inductive Category : Type where
  | mk (id : ℕ) (user_id : ℕ) (name : String) (description : Option String)
       (default_sale_price : Option Money) (base_purchase_price : Option Money)
       (purchase_tiers : List PurchaseTier) (parent : Option Category)

/-- Primary key of the category row. -/
def Category.id : Category → ℕ
  | .mk i _ _ _ _ _ _ _ => i

/-- Owning user of the category row. -/
def Category.user_id : Category → ℕ
  | .mk _ u _ _ _ _ _ _ => u

/-- Name column. -/
def Category.name : Category → String
  | .mk _ _ n _ _ _ _ _ => n

/-- Description column. -/
def Category.description : Category → Option String
  | .mk _ _ _ d _ _ _ _ => d

/-- Default sale price column (nullable). -/
def Category.default_sale_price : Category → Option Money
  | .mk _ _ _ _ dsp _ _ _ => dsp

/-- Base purchase price column (nullable). -/
def Category.base_purchase_price : Category → Option Money
  | .mk _ _ _ _ _ bpp _ _ => bpp

/-- Loaded purchase-tier rows of the category. -/
def Category.purchase_tiers : Category → List PurchaseTier
  | .mk _ _ _ _ _ _ ts _ => ts

/-- Loaded parent category (the `parent` relationship). -/
def Category.parent : Category → Option Category
  | .mk _ _ _ _ _ _ _ p => p

/-- Copy of the row with a new name (`cat.name = ...`). -/
def Category.set_name : Category → String → Category
  | .mk i u _ d dsp bpp ts p, n => .mk i u n d dsp bpp ts p

/-- Copy of the row with a new description. -/
def Category.set_description : Category → Option String → Category
  | .mk i u n _ dsp bpp ts p, d => .mk i u n d dsp bpp ts p

/-- Copy of the row with a new default sale price. -/
def Category.set_default_sale_price : Category → Option Money → Category
  | .mk i u n d _ bpp ts p, dsp => .mk i u n d dsp bpp ts p

/-- Copy of the row with a new base purchase price. -/
def Category.set_base_purchase_price : Category → Option Money → Category
  | .mk i u n d dsp _ ts p, bpp => .mk i u n d dsp bpp ts p

/-- Copy of the row with a replaced tier collection. -/
def Category.set_purchase_tiers : Category → List PurchaseTier → Category
  | .mk i u n d dsp bpp _ p, ts => .mk i u n d dsp bpp ts p

/-- Row of `products` (`app/models/product.py`), with the loaded
`category` relationship alongside the `category_id` foreign key. -/
structure Product where
  id : ℕ
  user_id : ℕ
  name : String
  unit_cost : Option Money
  quantity_in_stock : ℤ
  sale_price : Option Money
  category_id : Option ℕ
  category : Option Category

/-! ## Pricing resolver (`app/services/pricing.py`) -/

/-- Python `while cat: ... cat = cat.parent` loop body of
`resolve_sale_price`: climb the category tree for the first non-null
`default_sale_price`. -/
def walk_default_sale_price : Category → Option Money
  | .mk _ _ _ _ dsp _ _ par =>
    match dsp with
    | some d => some d
    | none =>
      match par with
      | none => none
      | some p => walk_default_sale_price p

/-- `resolve_sale_price` (pricing.py lines 15-31): the product's own
override wins, else the category chain is climbed, else `None`. -/
def resolve_sale_price (product : Product) : Option Money :=
  match product.sale_price with
  | some p => some p
  | none =>
    match product.category with
    | none => none
    | some c => walk_default_sale_price c

/-- Ordering of tiers used by `_sorted_tiers`. -/
def tier_le (a b : PurchaseTier) : Prop := a.threshold ≤ b.threshold

instance : DecidableRel tier_le := fun a b =>
  inferInstanceAs (Decidable (a.threshold ≤ b.threshold))

instance : IsTotal PurchaseTier tier_le := ⟨fun a b => Int.le_total a.threshold b.threshold⟩

instance : IsTrans PurchaseTier tier_le := ⟨fun _ _ _ h h' => le_trans h h'⟩

/-- `_sorted_tiers` (pricing.py lines 39-41): the category's tiers sorted
by ascending threshold (Python `sorted` is stable; insertion sort is the
stable reference sort). -/
def sorted_tiers (category : Category) : List PurchaseTier :=
  List.insertionSort tier_le category.purchase_tiers

/-- The `for i, t in enumerate(tiers)` loop of `_tier_index_for_total_qty`:
`i` is the position of the next tier, `idx` the last accepted position
(`-1` when none yet); the loop breaks at the first threshold above
`total_qty`. -/
def tier_index_loop (total_qty : ℤ) : List PurchaseTier → ℤ → ℤ → ℤ
  | [], _, idx => idx
  | t :: rest, i, idx =>
    if t.threshold ≤ total_qty then tier_index_loop total_qty rest (i + 1) i
    else idx

/-- `_tier_index_for_total_qty` (pricing.py lines 44-55): 0-based index of
the tier to use, `-1` when no tier threshold is reached. -/
def tier_index_for_total_qty (total_qty : ℤ) (tiers : List PurchaseTier) : ℤ :=
  tier_index_loop total_qty tiers 0 (-1)

/-- `resolve_purchase_price_global` (pricing.py lines 58-89): explicit
override, else the global tier for the order-wide quantity, else the
category base price, else `ValueError`. -/
def resolve_purchase_price_global (total_order_qty : ℤ) (category : Category)
    (product_override : Option Money) : Except String Money :=
  match product_override with
  | some o => .ok o
  | none =>
    let tiers := sorted_tiers category
    let tier_idx := tier_index_for_total_qty total_order_qty tiers
    if 0 ≤ tier_idx then
      match tiers.get? tier_idx.toNat with
      | some t => .ok t.price
      | none => .error "tier index out of range"
    else
      match category.base_purchase_price with
      | some b => .ok b
      | none =>
        .error ("Category " ++ toString category.id ++
          " has no base_purchase_price and no matching tier for total_order_qty=" ++
          toString total_order_qty ++ ".")

/-- Legacy per-line variant `resolve_purchase_price` (pricing.py lines
115-140): tier chosen by scanning the sorted tiers from the top for the
first threshold at or below the line's own quantity. -/
def resolve_purchase_price_line_loop (qty : ℤ) : List PurchaseTier → Option Money
  | [] => none
  | t :: rest =>
    if t.threshold ≤ qty then some t.price else resolve_purchase_price_line_loop qty rest

/-- Legacy `resolve_purchase_price` (per-line quantity tiering). -/
def resolve_purchase_price (qty : ℤ) (category : Category)
    (product_override : Option Money) : Except String Money :=
  match product_override with
  | some o => .ok o
  | none =>
    match resolve_purchase_price_line_loop qty (sorted_tiers category).reverse with
    | some p => .ok p
    | none =>
      match category.base_purchase_price with
      | some b => .ok b
      | none =>
        .error ("Category " ++ toString category.id ++
          " has no base_purchase_price and no matching tier for qty=" ++
          toString qty ++ ".")

/-- The category row followed by its ancestors, nearest first (the order
the `while` loop of `resolve_sale_price` visits them). -/
def ancestor_chain : Category → List Category
  | .mk i u n d dsp bpp ts par =>
    Category.mk i u n d dsp bpp ts par ::
      (match par with
       | none => []
       | some p => ancestor_chain p)

/-! ## Sale / purchase-order data model (`app/models/...`, `app/schemas/...`) -/

/-- Row of `sale_items` (`app/models/sale.py`). -/
structure SaleItem where
  sale_id : ℕ
  product_id : ℕ
  quantity : ℤ
  unit_price : Money
deriving DecidableEq, Repr

/-- Row of `sales` with its loaded `items` relationship
(`app/models/sale.py`).  Dates are opaque strings (the core never
computes with them). -/
structure Sale where
  id : ℕ
  user_id : ℕ
  sale_date : Option String
  notes : Option String
  sale_type : Option String
  payment_type : Option String
  processing_fee : Money
  items : List SaleItem
deriving DecidableEq, Repr

/-- Row of `inventory_logs` (`app/models/inventory_log.py`); the
server-side timestamp is external-clock territory and not modelled. -/
structure InventoryLog where
  product_id : ℕ
  change_type : String
  change_amount : ℤ
  note : String
deriving DecidableEq, Repr

/-- The fields of the `users` row the sale routes read. -/
structure User where
  id : ℕ
  credit_card_fee_flat : Money
deriving DecidableEq, Repr

/-- `SaleItemCreate` (`app/schemas/sale.py`): `quantity > 0` and
`unit_price ≥ 0` are pydantic validations, assumed where needed. -/
structure SaleItemCreate where
  product_id : ℕ
  quantity : ℤ
  unit_price : Money
deriving DecidableEq, Repr

/-- The pydantic `SaleCreate` schema (`app/schemas/sale.py` lines 17-22):
it declares exactly `sale_date`, `notes`, `sale_type` and `items` — there
is no `payment_type` field, and the model has no `extra` configuration,
so reading `payment_type` on an instance raises `AttributeError`.  (A
`payment_type` sent by a client is discarded during validation.) -/
structure SaleCreate where
  sale_date : Option String
  notes : Option String
  sale_type : Option String
  items : List SaleItemCreate
deriving DecidableEq, Repr

/-- `POItemCreate` (`app/routes/purchase_order.py`): `quantity ≥ 0`,
`unit_cost ≥ 0` are pydantic validations. -/
structure POItemCreate where
  product_id : ℕ
  quantity : ℤ
  unit_cost : Money
deriving DecidableEq, Repr

/-- `PurchaseOrderCreate` payload (`created_at` is clock territory and not
modelled). -/
structure PurchaseOrderCreate where
  shipping_cost : Money
  handling_cost : Money
  items : List POItemCreate
deriving DecidableEq, Repr

/-- Row of `purchase_order_items`. -/
structure PurchaseOrderItem where
  id : ℕ
  order_id : ℕ
  product_id : ℕ
  quantity : ℤ
  unit_cost : Money
deriving DecidableEq, Repr

/-- Row of `purchase_orders` with its loaded `items`. -/
structure PurchaseOrder where
  id : ℕ
  user_id : ℕ
  shipping_cost : Money
  handling_cost : Money
  items : List PurchaseOrderItem
deriving DecidableEq, Repr

/-- `POItemOut` response shape. -/
structure POItemOut where
  id : ℕ
  product_id : ℕ
  product_name : String
  category_name : Option String
  quantity : ℤ
  unit_cost : Money
deriving Repr

/-- `PurchaseOrderOut` response shape. -/
structure PurchaseOrderOut where
  id : ℕ
  shipping_cost : Money
  handling_cost : Money
  items_subtotal : Money
  grand_total : Money
  items : List POItemOut
deriving Repr

/-- `PurchaseTierCreate` (`app/schemas/category.py`): a positive threshold
with a money price. -/
structure PurchaseTierCreate where
  threshold : ℤ
  price : Money
deriving DecidableEq, Repr

/-- `CategoryUpdate` PATCH payload (`app/schemas/category.py`), restricted
to the fields `update_category` reads (the deprecated `price_tiers` and
`parent_id` fields are ignored by the route). -/
structure CategoryUpdate where
  name : Option String
  description : Option String
  default_sale_price : Option Money
  base_purchase_price : Option Money
  purchase_tiers : Option (List PurchaseTierCreate)
  propagate_prices : Bool
  propagate_sale_price : Bool
  propagate_purchase_cost : Bool
deriving Repr

/-- The typed errors the embedded routes raise: `HTTPException`s plus the
`AttributeError` a handler raises when it reads an attribute the pydantic
payload does not define (FastAPI turns the escaping exception into a 500;
the route's `except` block has already rolled the session back). -/
inductive ApiError : Type where
  | emptySale
  | productNotFound (product_id : ℕ)
  | saleNotFound
  | duplicateThreshold (threshold : ℤ)
  | attributeError (missing : String)
deriving DecidableEq, Repr

/-- The relational store the routes act on: one table per entity plus the
autoincrement counters the database supplies for new rows. -/
structure DB where
  products : List Product
  sales : List Sale
  purchase_orders : List PurchaseOrder
  inventory_logs : List InventoryLog
  next_sale_id : ℕ
  next_po_id : ℕ
  next_po_item_id : ℕ

/-! ## Sale routes (`app/routes/sale.py`) -/

/-- `_get_product` (sale.py lines 37-42): first product row matching
`id == product_id` and `user_id == user_id`. -/
def get_product (ps : List Product) (product_id user_id : ℕ) : Option Product :=
  ps.find? (fun p => p.id == product_id && p.user_id == user_id)

/-- `_get_sale` (sale.py lines 28-34). -/
def get_sale (ss : List Sale) (sale_id user_id : ℕ) : Option Sale :=
  ss.find? (fun s => s.id == sale_id && s.user_id == user_id)

/-- Adjustment of a single row's stock when it is the row addressed by
`(pid, uid)`. -/
def stock_adjust (pid uid : ℕ) (δ : ℤ) (p : Product) : Product :=
  if p.id = pid ∧ p.user_id = uid then
    { p with quantity_in_stock := p.quantity_in_stock + δ }
  else p

/-- Mutation `product.quantity_in_stock += δ` of the row fetched by
`_get_product`; by primary-key uniqueness this is the map over rows with
the matching `id` (and owner). -/
def update_product_stock (ps : List Product) (pid uid : ℕ) (δ : ℤ) : List Product :=
  ps.map (stock_adjust pid uid δ)

/-- `_revert_inventory_for_items` (sale.py lines 45-60): return inventory
for the given items, silently skipping items whose product is absent (or
owned by someone else); one `revert_sale` ledger row per restored item. -/
def revert_inventory_for_items (ps : List Product) (logs : List InventoryLog)
    (items : List SaleItem) (user_id : ℕ) (note_tag : String) :
    List Product × List InventoryLog :=
  match items with
  | [] => (ps, logs)
  | it :: rest =>
    match get_product ps it.product_id user_id with
    | none => revert_inventory_for_items ps logs rest user_id note_tag
    | some product =>
      revert_inventory_for_items
        (update_product_stock ps product.id user_id it.quantity)
        (logs ++ [{ product_id := product.id, change_type := "revert_sale",
                    change_amount := it.quantity,
                    note := note_tag ++ " " ++ toString it.sale_id }])
        rest user_id note_tag

/-- Python `str.lower()` modelled characterwise.  (Lean's builtin
`String.toLower` is defined by well-founded recursion and does not reduce
definitionally, so concrete evaluations could not go through the kernel
with it; this structural version is extensionally the same map.) -/
def py_lower (s : String) : String := ⟨s.data.map Char.toLower⟩

/-- `_recalc_processing_fee` (sale.py lines 68-77): flat fee on credit
card sales, zero otherwise. -/
def recalc_processing_fee (sale : Sale) (fee_flat : Money) : Sale :=
  let pt := py_lower (sale.payment_type.getD "")
  if pt = "credit_card" then { sale with processing_fee := round2 fee_flat }
  else { sale with processing_fee := 0 }

/-- `create_sale` (sale.py lines 84-143).  An empty item list is rejected
with 400 before anything else (line 90, outside the `try`).  Every other
request then fails unconditionally: building the `Sale` header at line 94
evaluates `sale_data.payment_type or "cash"` (line 98), and the pydantic
`SaleCreate` model defines no `payment_type` attribute, so an
`AttributeError` is raised *before any product lookup, stock change,
item row or ledger write*; the `except` block rolls the session back and
re-raises.  The item loop (lines 104-133), the `ProductNotFound` branch
(line 107) and `_recalc_processing_fee` (line 136) are unreachable from
this handler. -/
def create_sale (db : DB) (sale_data : SaleCreate) (current_user : User) :
    Except ApiError (DB × Sale) :=
  if sale_data.items = [] then .error .emptySale
  else .error (.attributeError "payment_type")

/-- The commit/rollback wrapper made explicit: on success the new store is
committed, on any raised error the session is rolled back and the store is
exactly the one from before the request. -/
def run_create_sale (db : DB) (sale_data : SaleCreate) (current_user : User) :
    DB × Option Sale :=
  match create_sale db sale_data current_user with
  | .ok (db', s) => (db', some s)
  | .error _ => (db, none)

/-- `update_sale` (sale.py lines 149-213).  A missing sale is 404.
Otherwise the handler reverts inventory for the existing items, deletes
them, and sets `sale_date`, `notes` and `sale_type` — all in the open
session — and then line 172 reads `updated_data.payment_type`, which the
pydantic `SaleCreate` model does not define: an `AttributeError` is
raised, the `except` block rolls the session back (discarding the staged
reverts, deletions and header changes), and the request fails.  No sale
update ever commits; the new-item loop (lines 175-203) is unreachable. -/
def update_sale (db : DB) (sale_id : ℕ) (updated_data : SaleCreate)
    (current_user : User) : Except ApiError DB :=
  match get_sale db.sales sale_id current_user.id with
  | none => .error .saleNotFound
  | some _ => .error (.attributeError "payment_type")

/-- The commit/rollback wrapper of the update route made explicit: the
committed store after a PUT /sales request (always the pre-request store,
since `update_sale` never returns `ok`). -/
def run_update_sale (db : DB) (sale_id : ℕ) (updated_data : SaleCreate)
    (current_user : User) : DB :=
  match update_sale db sale_id updated_data current_user with
  | .ok db' => db'
  | .error _ => db

/-- `delete_sale` (sale.py lines 261-287): revert inventory for the
existing items (`revert_sale` ledger rows), then remove the items and the
sale row. -/
def delete_sale (db : DB) (sale_id : ℕ) (current_user : User) :
    Except ApiError DB :=
  match get_sale db.sales sale_id current_user.id with
  | none => .error .saleNotFound
  | some sale =>
    let rev := revert_inventory_for_items db.products db.inventory_logs
      sale.items current_user.id "Sale deleted"
    .ok { db with
           products := rev.1,
           sales := db.sales.filter (fun s => s.id ≠ sale.id),
           inventory_logs := rev.2 }

/-! ## Purchase-order routes (`app/routes/purchase_order.py`) -/

/-- `_category_name_of` (purchase_order.py lines 63-69). -/
def category_name_of (prod : Option Product) : Option String :=
  match prod with
  | none => none
  | some p => p.category.map Category.name

/-- The `for it in po.items` accumulation of `_hydrate_po_out`: build the
item views and the running subtotal.  `db.get(Product, id)` is an
unscoped primary-key lookup. -/
def hydrate_po_step (products : List Product)
    (acc : List POItemOut × Money) (it : PurchaseOrderItem) :
    List POItemOut × Money :=
  let prod := products.find? (fun p => p.id == it.product_id)
  (acc.1 ++ [{ id := it.id, product_id := it.product_id,
               product_name :=
                 match prod with
                 | some p => p.name
                 | none => "Product " ++ toString it.product_id,
               category_name := category_name_of prod,
               quantity := it.quantity, unit_cost := it.unit_cost }],
   acc.2 + (it.quantity : Money) * it.unit_cost)

/-- `_hydrate_po_out` (purchase_order.py lines 72-110): the computed
response; note `grand = subtotal + shipping_cost + handling_cost`. -/
def hydrate_po_out (products : List Product) (po : PurchaseOrder) :
    PurchaseOrderOut :=
  let folded := po.items.foldl (hydrate_po_step products) ([], 0)
  let subtotal := folded.2
  let grand := subtotal + po.shipping_cost + po.handling_cost
  { id := po.id, shipping_cost := po.shipping_cost,
    handling_cost := po.handling_cost,
    items_subtotal := round2 subtotal, grand_total := round2 grand,
    items := folded.1 }

/-- `create_purchase_order` (purchase_order.py lines 153-186): build the
order row, insert one item row per payload line carrying the payload's
`unit_cost`, commit, and return the hydrated view.  No product lookup, no
stock change and no ledger write happens. -/
def create_purchase_order (db : DB) (payload : PurchaseOrderCreate)
    (current_user : User) : DB × PurchaseOrder × PurchaseOrderOut :=
  let po_id := db.next_po_id
  let items := payload.items.enum.map (fun (pair : ℕ × POItemCreate) =>
    ({ id := db.next_po_item_id + pair.1, order_id := po_id,
       product_id := pair.2.product_id, quantity := pair.2.quantity,
       unit_cost := pair.2.unit_cost } : PurchaseOrderItem))
  let po : PurchaseOrder :=
    { id := po_id, user_id := current_user.id,
      shipping_cost := payload.shipping_cost,
      handling_cost := payload.handling_cost, items := items }
  let db' : DB :=
    { db with
       purchase_orders := db.purchase_orders ++ [po],
       next_po_id := po_id + 1,
       next_po_item_id := db.next_po_item_id + payload.items.length }
  (db', po, hydrate_po_out db'.products po)

/-! ## Category cascade (`app/routes/category.py`) -/

/-- `_ensure_unique_thresholds` (category.py lines 34-40): reject the
first duplicate threshold before any mutation. -/
def ensure_unique_thresholds_loop (seen : List ℤ) :
    List PurchaseTierCreate → Except ApiError Unit
  | [] => .ok ()
  | t :: rest =>
    if t.threshold ∈ seen then .error (.duplicateThreshold t.threshold)
    else ensure_unique_thresholds_loop (t.threshold :: seen) rest

/-- Validate-before-write duplicate-threshold check. -/
def ensure_unique_thresholds (tiers : List PurchaseTierCreate) :
    Except ApiError Unit :=
  ensure_unique_thresholds_loop [] tiers

/-- Ordering used when sorting incoming tier payloads. -/
def tier_create_le (a b : PurchaseTierCreate) : Prop := a.threshold ≤ b.threshold

instance : DecidableRel tier_create_le := fun a b =>
  inferInstanceAs (Decidable (a.threshold ≤ b.threshold))

/-- `_replace_purchase_tiers` (category.py lines 52-64): delete all
existing tiers of the category and insert the provided set sorted by
threshold (full replace semantics). -/
def replace_purchase_tiers (cat : Category) (tiers : List PurchaseTierCreate) :
    Category :=
  cat.set_purchase_tiers
    ((List.insertionSort tier_create_le tiers).map
      (fun t => ({ threshold := t.threshold, price := t.price } : PurchaseTier)))

/-- `_cascade_prices` (category.py lines 66-97): bulk-update member
products; with `force` every member product is overwritten, otherwise only
those whose override field is NULL (inheriting). -/
def cascade_prices (products : List Product) (cat_id : ℕ)
    (upd_sale upd_purchase : Bool) (new_sale new_purchase : Option Money)
    (force : Bool) : List Product :=
  let ps1 :=
    if upd_sale then
      match new_sale with
      | none => products
      | some v =>
        if force then
          products.map (fun p =>
            if p.category_id = some cat_id then { p with sale_price := some v } else p)
        else
          products.map (fun p =>
            if p.category_id = some cat_id ∧ p.sale_price = none then
              { p with sale_price := some v }
            else p)
    else products
  if upd_purchase then
    match new_purchase with
    | none => ps1
    | some v =>
      if force then
        ps1.map (fun p =>
          if p.category_id = some cat_id then { p with unit_cost := some v } else p)
      else
        ps1.map (fun p =>
          if p.category_id = some cat_id ∧ p.unit_cost = none then
            { p with unit_cost := some v }
          else p)
  else ps1
/-- Body of `update_category` (category.py lines 236-283) after the
ownership lookup: track the old prices, update the plain fields, replace
the tiers (validate-before-write), then cascade only when a changed value
was supplied and the matching propagate flag (or the force flag) is set. -/
def update_category (cat : Category) (products : List Product)
    (payload : CategoryUpdate) : Except ApiError (Category × List Product) :=
  let old_sale := cat.default_sale_price
  let old_purchase := cat.base_purchase_price
  let cat1 :=
    match payload.name with
    | some n => cat.set_name n
    | none => cat
  let cat2 :=
    match payload.description with
    | some d => cat1.set_description (some d)
    | none => cat1
  let cat3 :=
    match payload.default_sale_price with
    | some v => cat2.set_default_sale_price (some v)
    | none => cat2
  let cat4 :=
    match payload.base_purchase_price with
    | some v => cat3.set_base_purchase_price (some v)
    | none => cat3
  let tiered : Except ApiError Category :=
    match payload.purchase_tiers with
    | none => .ok cat4
    | some tiers =>
      match ensure_unique_thresholds tiers with
      | .error e => .error e
      | .ok _ => .ok (replace_purchase_tiers cat4 tiers)
  match tiered with
  | .error e => .error e
  | .ok cat5 =>
    let force := payload.propagate_prices
    let upd_sale : Bool :=
      (force || payload.propagate_sale_price) &&
        payload.default_sale_price.isSome &&
        decide (payload.default_sale_price ≠ old_sale)
    let upd_purchase : Bool :=
      (force || payload.propagate_purchase_cost) &&
        payload.base_purchase_price.isSome &&
        decide (payload.base_purchase_price ≠ old_purchase)
    let products' :=
      if upd_sale || upd_purchase then
        cascade_prices products cat.id upd_sale upd_purchase
          payload.default_sale_price payload.base_purchase_price force
      else products
    .ok (cat5, products')

/-! ## Basic lemmas -/

theorem qfloor_intCast (n : ℤ) : qfloor (n : ℚ) = n := by
  simp [qfloor, Rat.num_intCast, Rat.den_intCast, Int.fdiv_one]

theorem round_half_even_intCast (n : ℤ) : round_half_even (n : ℚ) = n := by
  unfold round_half_even
  simp only [qfloor_intCast, sub_self]
  norm_num

theorem round2_cents {q : ℚ} (h : is_cents q) : round2 q = q := by
  obtain ⟨n, rfl⟩ := h
  unfold round2
  rw [div_mul_cancel₀ (n : ℚ) (by norm_num : (100 : ℚ) ≠ 0), round_half_even_intCast]

/-! ## Tier-selection characterisation (pricing resolver) -/

/-- Reference picker: the last tier of the maximal accepted prefix (the
loop breaks at the first threshold above `q`, so acceptance stops there
too). -/
def last_le (q : ℤ) : List PurchaseTier → Option PurchaseTier
  | [] => none
  | t :: rest => if t.threshold ≤ q then some ((last_le q rest).getD t) else none

theorem tier_index_loop_shift (q : ℤ) :
    ∀ (l : List PurchaseTier) (k : ℤ),
    tier_index_loop q l (k + 1) k = k + 1 + tier_index_loop q l 0 (-1) := by
  intro l
  induction l with
  | nil => intro k; simp [tier_index_loop]
  | cons t rest ih =>
    intro k
    by_cases h : t.threshold ≤ q
    · simp only [tier_index_loop, if_pos h]
      rw [show k + 1 + 1 = (k + 1) + 1 from rfl, ih (k + 1), show (0 : ℤ) + 1 = 0 + 1 from rfl,
        ih 0]
      omega
    · simp only [tier_index_loop, if_neg h]
      omega

theorem tier_index_ge_neg_one (q : ℤ) :
    ∀ l : List PurchaseTier, -1 ≤ tier_index_for_total_qty q l := by
  intro l
  induction l with
  | nil => simp [tier_index_for_total_qty, tier_index_loop]
  | cons t rest ih =>
    unfold tier_index_for_total_qty at *
    by_cases h : t.threshold ≤ q
    · simp only [tier_index_loop, if_pos h]
      show (-1 : ℤ) ≤ tier_index_loop q rest 1 0
      have hs : tier_index_loop q rest 1 0 = 1 + tier_index_loop q rest 0 (-1) := by
        simpa using tier_index_loop_shift q rest 0
      omega
    · simp only [tier_index_loop, if_neg h]
      omega

theorem tier_index_lt_length (q : ℤ) :
    ∀ l : List PurchaseTier, tier_index_for_total_qty q l < (l.length : ℤ) := by
  intro l
  induction l with
  | nil =>
    simp [tier_index_for_total_qty, tier_index_loop]
  | cons t rest ih =>
    unfold tier_index_for_total_qty at *
    by_cases h : t.threshold ≤ q
    · simp only [tier_index_loop, if_pos h, List.length_cons]
      show tier_index_loop q rest 1 0 < ((rest.length + 1 : ℕ) : ℤ)
      have hs : tier_index_loop q rest 1 0 = 1 + tier_index_loop q rest 0 (-1) := by
        simpa using tier_index_loop_shift q rest 0
      push_cast
      omega
    · simp only [tier_index_loop, if_neg h, List.length_cons]
      push_cast
      omega

/-- The index computed by the break-at-first-failure loop addresses
exactly the tier `last_le` names. -/
theorem tier_pick_eq_last_le (q : ℤ) :
    ∀ l : List PurchaseTier,
    (if 0 ≤ tier_index_for_total_qty q l then l.get? (tier_index_for_total_qty q l).toNat
     else none) = last_le q l := by
  intro l
  induction l with
  | nil => simp [tier_index_for_total_qty, tier_index_loop, last_le]
  | cons t rest ih =>
    by_cases h : t.threshold ≤ q
    · have hidx : tier_index_for_total_qty q (t :: rest) =
          1 + tier_index_for_total_qty q rest := by
        unfold tier_index_for_total_qty
        simp only [tier_index_loop, if_pos h]
        show tier_index_loop q rest 1 0 = _
        simpa using tier_index_loop_shift q rest 0
      rw [hidx]
      have hge := tier_index_ge_neg_one q rest
      rcases eq_or_lt_of_le hge with heq | hlt
      · have hidxr : tier_index_for_total_qty q rest = -1 := heq.symm
        have hrest_none : last_le q rest = none := by
          rw [← ih, hidxr]
          norm_num
        rw [hidxr]
        simp [last_le, h, hrest_none, show (1 : ℤ) + -1 = 0 from by norm_num]
      · have h0 : 0 ≤ tier_index_for_total_qty q rest := by omega
        rw [if_pos h0] at ih
        have hlen := tier_index_lt_length q rest
        cases hv : last_le q rest with
        | none =>
          exfalso
          rw [hv] at ih
          have := List.get?_eq_none.mp ih
          omega
        | some t1 =>
          rw [hv] at ih
          have h1 : (0 : ℤ) ≤ 1 + tier_index_for_total_qty q rest := by omega
          rw [if_pos h1]
          have htn : (1 + tier_index_for_total_qty q rest).toNat =
              (tier_index_for_total_qty q rest).toNat + 1 := by omega
          rw [htn]
          simp only [List.get?_cons_succ, ih, last_le, if_pos h, hv, Option.getD_some]
    · have hidx : tier_index_for_total_qty q (t :: rest) = -1 := by
        unfold tier_index_for_total_qty
        simp only [tier_index_loop, if_neg h]
      rw [hidx]
      simp [last_le, h]

/-- On a sorted tier list, an empty `last_le` result means every
threshold exceeds the quantity. -/
theorem last_le_none_spec (q : ℤ) :
    ∀ l : List PurchaseTier, List.Sorted tier_le l → last_le q l = none →
    ∀ t ∈ l, q < t.threshold := by
  intro l
  cases l with
  | nil => intro _ _ t ht; exact absurd ht (by simp)
  | cons t0 rest =>
    intro hsorted hnone t ht
    obtain ⟨hall, _⟩ := List.sorted_cons.mp hsorted
    by_cases h : t0.threshold ≤ q
    · exfalso
      simp [last_le, h] at hnone
    · rcases ht with _ | ht
      · omega
      · have := hall t (by assumption)
        unfold tier_le at this
        omega

/-- On a sorted tier list, `last_le` names a member whose threshold is met
and is the largest met threshold. -/
theorem last_le_some_spec (q : ℤ) :
    ∀ l : List PurchaseTier, List.Sorted tier_le l → ∀ t, last_le q l = some t →
    t ∈ l ∧ t.threshold ≤ q ∧ ∀ t' ∈ l, t'.threshold ≤ q → t'.threshold ≤ t.threshold := by
  intro l
  induction l with
  | nil => intro _ t ht; exact absurd ht (by simp [last_le])
  | cons t0 rest ih =>
    intro hsorted t hsome
    obtain ⟨hall, hsorted'⟩ := List.sorted_cons.mp hsorted
    by_cases h : t0.threshold ≤ q
    · simp only [last_le, if_pos h] at hsome
      injection hsome with hsome
      cases hv : last_le q rest with
      | none =>
        rw [hv] at hsome
        simp only [Option.getD_none] at hsome
        subst hsome
        refine ⟨by simp, h, ?_⟩
        intro t' ht' hle'
        rcases ht' with _ | ht'
        · omega
        · have := last_le_none_spec q rest hsorted' hv t' (by assumption)
          omega
      | some t1 =>
        rw [hv] at hsome
        simp only [Option.getD_some] at hsome
        subst hsome
        obtain ⟨hmem, hle, hmax⟩ := ih hsorted' t1 hv
        refine ⟨by simp [hmem], hle, ?_⟩
        intro t' ht' hle'
        rcases ht' with _ | ht'
        · have := hall t1 hmem
          unfold tier_le at this
          omega
        · exact hmax t' (by assumption) hle'
    · simp [last_le, h] at hsome

/-- Scenario-A category: `base_purchase_price = 10`, tiers
`{(50, 9), (100, 8)}`. -/
def catA : Category :=
  .mk 1 1 "C" none none (some 10) [⟨50, 9⟩, ⟨100, 8⟩] none

/-- C4: purchase-price resolution returns a supplied per-line override
verbatim; otherwise the price of the tier with the largest threshold at
or below the order-wide quantity; else the category base price when set;
else it fails (`ValueError`, the `NoPriceAvailable` outcome).  Scenario A:
quantity 40 resolves to 10, quantity 60 to 9, quantity 120 to 8. -/
theorem purchase_price_resolution_spec (cat : Category) (q : ℤ) (o : Money) :
    (resolve_purchase_price_global q cat (some o) = .ok o) ∧
    ((∃ t ∈ cat.purchase_tiers, t.threshold ≤ q) →
      ∃ t ∈ cat.purchase_tiers, t.threshold ≤ q ∧
        (∀ t' ∈ cat.purchase_tiers, t'.threshold ≤ q → t'.threshold ≤ t.threshold) ∧
        resolve_purchase_price_global q cat none = .ok t.price) ∧
    ((∀ t ∈ cat.purchase_tiers, q < t.threshold) →
      ∀ b, cat.base_purchase_price = some b →
        resolve_purchase_price_global q cat none = .ok b) ∧
    ((∀ t ∈ cat.purchase_tiers, q < t.threshold) →
      cat.base_purchase_price = none →
        ∃ msg, resolve_purchase_price_global q cat none = .error msg) ∧
    (resolve_purchase_price_global 40 catA none = .ok 10 ∧
     resolve_purchase_price_global 60 catA none = .ok 9 ∧
     resolve_purchase_price_global 120 catA none = .ok 8) := by
  have hsorted : List.Sorted tier_le (sorted_tiers cat) :=
    List.sorted_insertionSort tier_le cat.purchase_tiers
  have hperm : List.Perm (List.insertionSort tier_le cat.purchase_tiers)
      cat.purchase_tiers :=
    List.perm_insertionSort tier_le cat.purchase_tiers
  have hpick := tier_pick_eq_last_le q (sorted_tiers cat)
  refine ⟨rfl, ?_, ?_, ?_, rfl, rfl, rfl⟩
  · intro hex
    cases hv : last_le q (sorted_tiers cat) with
    | none =>
      exfalso
      obtain ⟨t, hmem, hle⟩ := hex
      have hmem' : t ∈ sorted_tiers cat := hperm.mem_iff.mpr hmem
      have := last_le_none_spec q _ hsorted hv t hmem'
      omega
    | some t =>
      obtain ⟨hmem, hle, hmax⟩ := last_le_some_spec q _ hsorted t hv
      refine ⟨t, hperm.subset hmem, hle, ?_, ?_⟩
      · intro t' ht' hle'
        exact hmax t' (hperm.mem_iff.mpr ht') hle'
      · rw [hv] at hpick
        by_cases h0 : 0 ≤ tier_index_for_total_qty q (sorted_tiers cat)
        · rw [if_pos h0] at hpick
          unfold resolve_purchase_price_global
          dsimp only
          rw [if_pos h0, hpick]
        · rw [if_neg h0] at hpick
          exact absurd hpick (by simp)
  · intro habove b hb
    have hnone : last_le q (sorted_tiers cat) = none := by
      cases hv : last_le q (sorted_tiers cat) with
      | none => rfl
      | some t =>
        exfalso
        obtain ⟨hmem, hle, _⟩ := last_le_some_spec q _ hsorted t hv
        have := habove t (hperm.subset hmem)
        omega
    rw [hnone] at hpick
    have h0 : ¬ 0 ≤ tier_index_for_total_qty q (sorted_tiers cat) := by
      intro h0
      rw [if_pos h0] at hpick
      have hlen := tier_index_lt_length q (sorted_tiers cat)
      have := List.get?_eq_none.mp hpick
      omega
    unfold resolve_purchase_price_global
    dsimp only
    rw [if_neg h0, hb]
  · intro habove hb
    have hnone : last_le q (sorted_tiers cat) = none := by
      cases hv : last_le q (sorted_tiers cat) with
      | none => rfl
      | some t =>
        exfalso
        obtain ⟨hmem, hle, _⟩ := last_le_some_spec q _ hsorted t hv
        have := habove t (hperm.subset hmem)
        omega
    rw [hnone] at hpick
    have h0 : ¬ 0 ≤ tier_index_for_total_qty q (sorted_tiers cat) := by
      intro h0
      rw [if_pos h0] at hpick
      have hlen := tier_index_lt_length q (sorted_tiers cat)
      have := List.get?_eq_none.mp hpick
      omega
    refine ⟨"Category " ++ toString cat.id ++
      " has no base_purchase_price and no matching tier for total_order_qty=" ++
      toString q ++ ".", ?_⟩
    unfold resolve_purchase_price_global
    dsimp only
    rw [if_neg h0, hb]

/-- A `findSome?` over a list on which the selector is always `none`. -/
theorem findSome_none_of_all {α β : Type _} (f : α → Option β) :
    ∀ l : List α, (∀ a ∈ l, f a = none) → l.findSome? f = none := by
  intro l
  induction l with
  | nil => intro _; rfl
  | cons a rest ih =>
    intro h
    rw [List.findSome?_cons, h a (by simp)]
    exact ih (fun a' ha' => h a' (by simp [ha']))

/-- The category-chain walk is the first non-null default sale price along
the ancestor chain (nearest ancestor first). -/
theorem walk_eq_findSome :
    ∀ c : Category,
    walk_default_sale_price c =
      (ancestor_chain c).findSome? Category.default_sale_price
  | .mk i u n d dsp bpp ts par => by
    cases par with
    | none => cases dsp <;> rfl
    | some p =>
      cases dsp with
      | some v => rfl
      | none => exact walk_eq_findSome p

/-- Scenario-B parent category: `default_sale_price = 20`. -/
def catBparent : Category :=
  .mk 2 1 "Bparent" none (some 20) none [] none

/-- Scenario-B category: `default_sale_price = 25`, parent `catBparent`. -/
def catB : Category :=
  .mk 3 1 "B" none (some 25) none [] (some catBparent)

/-- Scenario-B product: `sale_price = NULL`, category `catB`. -/
def prodB : Product :=
  { id := 1, user_id := 1, name := "P", unit_cost := none,
    quantity_in_stock := 0, sale_price := none, category_id := some 3,
    category := some catB }

/-- C5: sale-price resolution returns the product's own `sale_price` when
set; otherwise it walks the category chain upward through parent links and
returns the first non-null `default_sale_price` (nearest ancestor wins);
with no category, or when no ancestor carries one, it returns `none`.
Scenario B: category default 25 over parent default 20 resolves to 25. -/
theorem sale_price_resolution_spec (prod : Product) :
    (∀ v, prod.sale_price = some v → resolve_sale_price prod = some v) ∧
    (prod.sale_price = none → ∀ c, prod.category = some c →
      resolve_sale_price prod =
        (ancestor_chain c).findSome? Category.default_sale_price) ∧
    (prod.sale_price = none → prod.category = none →
      resolve_sale_price prod = none) ∧
    (prod.sale_price = none → ∀ c, prod.category = some c →
      (∀ a ∈ ancestor_chain c, a.default_sale_price = none) →
      resolve_sale_price prod = none) ∧
    (resolve_sale_price prodB = some 25) := by
  refine ⟨?_, ?_, ?_, ?_, rfl⟩
  · intro v hv
    unfold resolve_sale_price
    rw [hv]
  · intro hnone c hc
    unfold resolve_sale_price
    rw [hnone, hc]
    exact walk_eq_findSome c
  · intro hnone hc
    unfold resolve_sale_price
    rw [hnone, hc]
  · intro hnone c hc hall
    unfold resolve_sale_price
    rw [hnone, hc]
    show walk_default_sale_price c = none
    rw [walk_eq_findSome c]
    exact findSome_none_of_all _ _ hall

theorem enumFrom_map_field {β : Type _} (f : ℕ × POItemCreate → β) (g : POItemCreate → β)
    (h : ∀ i it, f (i, it) = g it) :
    ∀ (n : ℕ) (l : List POItemCreate), (List.enumFrom n l).map f = l.map g := by
  intro n l
  induction l generalizing n with
  | nil => rfl
  | cons it rest ih => simp [List.enumFrom, h, ih]

/-- The item rows stored by `create_purchase_order` (positions paired by
`enum` to assign row ids). -/
theorem create_po_items (db : DB) (payload : PurchaseOrderCreate) (u : User) :
    (create_purchase_order db payload u).2.1.items =
      payload.items.enum.map (fun pair =>
        ({ id := db.next_po_item_id + pair.1, order_id := db.next_po_id,
           product_id := pair.2.product_id, quantity := pair.2.quantity,
           unit_cost := pair.2.unit_cost } : PurchaseOrderItem)) := rfl

/-- C1 (amended): `create_purchase_order` stores, for every line, the
caller-supplied `unit_cost` verbatim (the pricing resolver is never
consulted), leaves every product's `quantity_in_stock` unchanged, and
appends no inventory-ledger entry. -/
theorem po_create_stamps_caller_cost_only (db : DB) (payload : PurchaseOrderCreate)
    (u : User) :
    (create_purchase_order db payload u).1.products = db.products ∧
    (create_purchase_order db payload u).1.inventory_logs = db.inventory_logs ∧
    (create_purchase_order db payload u).2.1.items.map PurchaseOrderItem.unit_cost =
      payload.items.map POItemCreate.unit_cost ∧
    (create_purchase_order db payload u).2.1.items.map PurchaseOrderItem.product_id =
      payload.items.map POItemCreate.product_id ∧
    (create_purchase_order db payload u).2.1.items.map PurchaseOrderItem.quantity =
      payload.items.map POItemCreate.quantity := by
  refine ⟨rfl, rfl, ?_, ?_, ?_⟩ <;>
    rw [create_po_items, List.map_map] <;>
    exact enumFrom_map_field _ _ (fun i it => rfl) 0 payload.items

/-- Concrete category for the C1 refutation: base purchase price 10, no
tiers. -/
def exCatC1 : Category := .mk 7 1 "Widgets" none none (some 10) [] none

/-- Concrete product for the C1 refutation: 5 units in stock. -/
def exProdC1 : Product :=
  { id := 1, user_id := 1, name := "X", unit_cost := none,
    quantity_in_stock := 5, sale_price := none, category_id := some 7,
    category := some exCatC1 }

/-- Store for the C1 refutation. -/
def exDB1 : DB :=
  { products := [exProdC1], sales := [], purchase_orders := [],
    inventory_logs := [], next_sale_id := 1, next_po_id := 1, next_po_item_id := 1 }

/-- PO payload for the C1 refutation: 3 units of product 1 at caller cost
7, although the resolver would give the category base price 10. -/
def exPayload1 : PurchaseOrderCreate :=
  { shipping_cost := 0, handling_cost := 0, items := [⟨1, 3, 7⟩] }

/-- User for the concrete examples. -/
def exUser1 : User := { id := 1, credit_card_fee_flat := 0 }

/-- C1 refutation at a concrete input: after `create_purchase_order` the
product's stock is still 5 (not 5 + 3), the inventory ledger is still
empty (no `purchase` entry), and the stored line cost is the payload's 7
even though the resolver yields 10. -/
theorem po_create_claim_fails_at_input :
    ((get_product (create_purchase_order exDB1 exPayload1 exUser1).1.products 1 1).map
      Product.quantity_in_stock = some 5) ∧
    ¬ ((get_product (create_purchase_order exDB1 exPayload1 exUser1).1.products 1 1).map
      Product.quantity_in_stock = some 8) ∧
    (create_purchase_order exDB1 exPayload1 exUser1).1.inventory_logs = [] ∧
    (create_purchase_order exDB1 exPayload1 exUser1).2.1.items.map
      PurchaseOrderItem.unit_cost = [7] ∧
    resolve_purchase_price_global 3 exCatC1 none = .ok 10 ∧
    ¬ ((7 : Money) = 10) := by
  refine ⟨rfl, ?_, rfl, rfl, rfl, ?_⟩
  · decide
  · decide

/-- The running subtotal accumulated by the hydrate fold. -/
theorem hydrate_fold_subtotal (products : List Product) :
    ∀ (items : List PurchaseOrderItem) (acc : List POItemOut) (s : Money),
    (items.foldl (hydrate_po_step products) (acc, s)).2 =
      s + (items.map (fun it => (it.quantity : Money) * it.unit_cost)).sum := by
  intro items
  induction items with
  | nil => intro acc s; simp
  | cons it rest ih =>
    intro acc s
    rw [List.foldl_cons]
    show (rest.foldl (hydrate_po_step products)
      (_, s + (it.quantity : Money) * it.unit_cost)).2 = _
    rw [ih]
    rw [List.map_cons, List.sum_cons]
    ring

/-- C3 (amended): the hydrated purchase-order view computes
`items_subtotal` as the (2-decimal rounded) sum of quantity times unit
cost over the lines, and `grand_total` as the rounded sum of
`items_subtotal + shipping_cost + handling_cost` — the handling cost IS
added into the grand total. -/
theorem po_totals_formula (products : List Product) (po : PurchaseOrder) :
    (hydrate_po_out products po).items_subtotal =
      round2 ((po.items.map (fun it => (it.quantity : Money) * it.unit_cost)).sum) ∧
    (hydrate_po_out products po).grand_total =
      round2 ((po.items.map (fun it => (it.quantity : Money) * it.unit_cost)).sum
        + po.shipping_cost + po.handling_cost) := by
  unfold hydrate_po_out
  dsimp only
  constructor <;> rw [hydrate_fold_subtotal products po.items [] 0, zero_add]

/-- Concrete purchase order for the C3 refutation: one line of 3 units at
unit cost 4 (subtotal 12), shipping 2, handling 5. -/
def exPO3 : PurchaseOrder :=
  { id := 1, user_id := 1, shipping_cost := 2, handling_cost := 5,
    items := [{ id := 1, order_id := 1, product_id := 1, quantity := 3, unit_cost := 4 }] }

/-- C3 refutation at a concrete input: the computed `grand_total` is 19 =
12 + 2 + 5, not `items_subtotal + shipping_cost` = 14 — `handling_cost`
does contribute to `grand_total`. -/
theorem po_grand_total_includes_handling_at_input :
    (hydrate_po_out [] exPO3).items_subtotal = 12 ∧
    (hydrate_po_out [] exPO3).grand_total = 19 ∧
    ¬ ((hydrate_po_out [] exPO3).grand_total =
        (hydrate_po_out [] exPO3).items_subtotal + exPO3.shipping_cost) := by
  have hsub : (hydrate_po_out [] exPO3).items_subtotal = 12 := by
    unfold hydrate_po_out
    dsimp only
    rw [hydrate_fold_subtotal [] exPO3.items [] 0]
    norm_num [exPO3, round2, round_half_even, qfloor]
  have hgrand : (hydrate_po_out [] exPO3).grand_total = 19 := by
    unfold hydrate_po_out
    dsimp only
    rw [hydrate_fold_subtotal [] exPO3.items [] 0]
    norm_num [exPO3, round2, round_half_even, qfloor]
  refine ⟨hsub, hgrand, ?_⟩
  rw [hgrand, hsub]
  norm_num [exPO3]

/-- Scenario-C product after the original sale: 2 units in stock. -/
def exProd2 : Product :=
  { id := 1, user_id := 1, name := "X", unit_cost := none,
    quantity_in_stock := 2, sale_price := none, category_id := none,
    category := none }

/-- Scenario-C sale: one item of 3 units at unit price 12. -/
def exSale2 : Sale :=
  { id := 1, user_id := 1, sale_date := none, notes := none,
    sale_type := some "individual", payment_type := some "cash",
    processing_fee := 0,
    items := [{ sale_id := 1, product_id := 1, quantity := 3, unit_price := 12 }] }

/-- Store for the scenario-C edit. -/
def exDB2 : DB :=
  { products := [exProd2], sales := [exSale2], purchase_orders := [],
    inventory_logs := [], next_sale_id := 2, next_po_id := 1, next_po_item_id := 1 }

/-- Scenario-C edit payload: the item becomes 1 unit. -/
def exUpd2 : SaleCreate :=
  { sale_date := none, notes := none, sale_type := none,
    items := [{ product_id := 1, quantity := 1, unit_price := 12 }] }

/-- User for the scenario-C edit. -/
def exUser2 : User := { id := 1, credit_card_fee_flat := 0 }

/-- The products component `update_category` commits when no tier
replacement is requested: the cascade runs exactly when a changed value
was supplied together with its propagate flag (or force). -/
theorem update_category_ok_products (cat : Category) (products : List Product)
    (payload : CategoryUpdate) (ht : payload.purchase_tiers = none) :
    ∃ cat', update_category cat products payload = .ok (cat',
      if ((payload.propagate_prices || payload.propagate_sale_price) &&
          payload.default_sale_price.isSome &&
          decide (payload.default_sale_price ≠ cat.default_sale_price)) ||
         ((payload.propagate_prices || payload.propagate_purchase_cost) &&
          payload.base_purchase_price.isSome &&
          decide (payload.base_purchase_price ≠ cat.base_purchase_price)) then
        cascade_prices products cat.id
          ((payload.propagate_prices || payload.propagate_sale_price) &&
            payload.default_sale_price.isSome &&
            decide (payload.default_sale_price ≠ cat.default_sale_price))
          ((payload.propagate_prices || payload.propagate_purchase_cost) &&
            payload.base_purchase_price.isSome &&
            decide (payload.base_purchase_price ≠ cat.base_purchase_price))
          payload.default_sale_price payload.base_purchase_price
          payload.propagate_prices
      else products) := by
  unfold update_category
  rw [ht]
  exact ⟨_, rfl⟩

/-- C8: category price cascades.  (a) When the supplied values equal the
stored ones (and no tier replacement is requested) the cascade is skipped
entirely: the member products are returned unchanged.  (b) With
`force = false` and a changed sale price, only member products whose
`sale_price` override is NULL receive the new value; products with a
non-null override keep it (and their `unit_cost`), and non-member
products are untouched.  (c) With `force = true` every member product is
overwritten.  (d) The same NULL-only rule holds for the `unit_cost`
side. -/
theorem cascade_semantics (cat : Category) (products : List Product)
    (payload : CategoryUpdate) (ht : payload.purchase_tiers = none) :
    (payload.default_sale_price = cat.default_sale_price →
      payload.base_purchase_price = cat.base_purchase_price →
      ∃ cat', update_category cat products payload = .ok (cat', products)) ∧
    (payload.propagate_prices = false → payload.propagate_sale_price = true →
      ∀ v, payload.default_sale_price = some v →
      some v ≠ cat.default_sale_price →
      payload.base_purchase_price = none →
      ∃ cat' ps', update_category cat products payload = .ok (cat', ps') ∧
        (∀ i p, products.get? i = some p → p.sale_price ≠ none →
          ∃ p', ps'.get? i = some p' ∧ p'.sale_price = p.sale_price ∧
            p'.id = p.id ∧ p'.unit_cost = p.unit_cost) ∧
        (∀ i p, products.get? i = some p → p.category_id = some cat.id →
          p.sale_price = none →
          ∃ p', ps'.get? i = some p' ∧ p'.sale_price = some v ∧ p'.id = p.id) ∧
        (∀ i p, products.get? i = some p → ¬ p.category_id = some cat.id →
          ps'.get? i = some p)) ∧
    (payload.propagate_prices = true →
      ∀ v, payload.default_sale_price = some v →
      some v ≠ cat.default_sale_price →
      payload.base_purchase_price = none →
      ∃ cat' ps', update_category cat products payload = .ok (cat', ps') ∧
        (∀ i p, products.get? i = some p → p.category_id = some cat.id →
          ps'.get? i = some { p with sale_price := some v }) ∧
        (∀ i p, products.get? i = some p → ¬ p.category_id = some cat.id →
          ps'.get? i = some p)) ∧
    (payload.propagate_prices = false → payload.propagate_purchase_cost = true →
      payload.propagate_sale_price = false →
      ∀ w, payload.base_purchase_price = some w →
      some w ≠ cat.base_purchase_price →
      payload.default_sale_price = none →
      ∃ cat' ps', update_category cat products payload = .ok (cat', ps') ∧
        (∀ i p, products.get? i = some p → p.unit_cost ≠ none →
          ∃ p', ps'.get? i = some p' ∧ p'.unit_cost = p.unit_cost ∧
            p'.id = p.id ∧ p'.sale_price = p.sale_price) ∧
        (∀ i p, products.get? i = some p → p.category_id = some cat.id →
          p.unit_cost = none →
          ∃ p', ps'.get? i = some p' ∧ p'.unit_cost = some w ∧ p'.id = p.id)) := by
  obtain ⟨cat0, hrun⟩ := update_category_ok_products cat products payload ht
  refine ⟨?_, ?_, ?_, ?_⟩
  · intro hs hp
    rw [hs, hp] at hrun
    simp at hrun
    exact ⟨cat0, hrun⟩
  · intro hforce hprop v hv hne hbp
    rw [hforce, hprop, hv, hbp] at hrun
    simp [hne] at hrun
    rw [show cascade_prices products cat.id true false (some v) none false =
        products.map (fun p =>
          if p.category_id = some cat.id ∧ p.sale_price = none then
            { p with sale_price := some v }
          else p) by simp [cascade_prices]] at hrun
    refine ⟨cat0, _, hrun, ?_, ?_, ?_⟩
    · intro i p hp hover
      refine ⟨_, by rw [List.get?_map, hp]; rfl, ?_, ?_, ?_⟩ <;>
        · by_cases hc : p.category_id = some cat.id ∧ p.sale_price = none
          · exact absurd hc.2 hover
          · simp [hc]
    · intro i p hp hmem hnull
      refine ⟨_, by rw [List.get?_map, hp]; rfl, ?_, ?_⟩ <;>
        simp [hmem, hnull]
    · intro i p hp hmem
      rw [List.get?_map, hp]
      simp [hmem]
  · intro hforce v hv hne hbp
    rw [hforce, hv, hbp] at hrun
    simp [hne] at hrun
    rw [show cascade_prices products cat.id true false (some v) none true =
        products.map (fun p =>
          if p.category_id = some cat.id then { p with sale_price := some v }
          else p) by simp [cascade_prices]] at hrun
    refine ⟨cat0, _, hrun, ?_, ?_⟩
    · intro i p hp hmem
      rw [List.get?_map, hp]
      simp [hmem]
    · intro i p hp hmem
      rw [List.get?_map, hp]
      simp [hmem]
  · intro hforce hprop hprops w hw hne hds
    rw [hforce, hprop, hprops, hw, hds] at hrun
    simp [hne] at hrun
    rw [show cascade_prices products cat.id false true none (some w) false =
        products.map (fun p =>
          if p.category_id = some cat.id ∧ p.unit_cost = none then
            { p with unit_cost := some w }
          else p) by simp [cascade_prices]] at hrun
    refine ⟨cat0, _, hrun, ?_, ?_⟩
    · intro i p hp hover
      refine ⟨_, by rw [List.get?_map, hp]; rfl, ?_, ?_, ?_⟩ <;>
        · by_cases hc : p.category_id = some cat.id ∧ p.unit_cost = none
          · exact absurd hc.2 hover
          · simp [hc]
    · intro i p hp hmem hnull
      refine ⟨_, by rw [List.get?_map, hp]; rfl, ?_, ?_⟩ <;>
        simp [hmem, hnull]

/-! ## Concrete instantiations (witnesses) -/

/-- Category with neither base price nor tiers, for the failure case of
the C4 witness. -/
def catD4 : Category := .mk 9 1 "D" none none none [] none

/-- Witness instantiation of the C4 theorem: override verbatim, tier
(50, 9) for quantity 60, base price for quantity 40, failure without
base price. -/
theorem purchase_price_resolution_spec_witness :
    resolve_purchase_price_global 60 catA (some 7) = .ok 7 ∧
    (∃ t ∈ catA.purchase_tiers, t.threshold ≤ 60 ∧
      (∀ t' ∈ catA.purchase_tiers, t'.threshold ≤ 60 → t'.threshold ≤ t.threshold) ∧
      resolve_purchase_price_global 60 catA none = .ok t.price) ∧
    resolve_purchase_price_global 40 catA none = .ok 10 ∧
    (∃ msg, resolve_purchase_price_global 5 catD4 none = .error msg) := by
  refine ⟨(purchase_price_resolution_spec catA 60 7).1, ?_, ?_, ?_⟩
  · exact (purchase_price_resolution_spec catA 60 7).2.1 ⟨⟨50, 9⟩, by decide, by decide⟩
  · exact (purchase_price_resolution_spec catA 40 7).2.2.1 (by decide) 10 rfl
  · exact (purchase_price_resolution_spec catD4 5 7).2.2.2.1 (by decide) rfl

/-- Scenario-B product with an explicit override, for the C5 witness. -/
def exProdB2 : Product :=
  { id := 2, user_id := 1, name := "P2", unit_cost := none,
    quantity_in_stock := 0, sale_price := some 7, category_id := some 3,
    category := some catB }

/-- Witness instantiation of the C5 theorem at scenario B. -/
theorem sale_price_resolution_spec_witness :
    resolve_sale_price prodB = some 25 ∧
    resolve_sale_price prodB =
      (ancestor_chain catB).findSome? Category.default_sale_price ∧
    resolve_sale_price exProdB2 = some 7 := by
  refine ⟨(sale_price_resolution_spec prodB).2.2.2.2, ?_, ?_⟩
  · exact (sale_price_resolution_spec prodB).2.1 rfl catB rfl
  · exact (sale_price_resolution_spec exProdB2).1 7 rfl

/-- Product and store for the C6 witness. -/
def exProd6 : Product :=
  { id := 1, user_id := 1, name := "A", unit_cost := none,
    quantity_in_stock := 5, sale_price := none, category_id := none,
    category := none }

/-- Store for the C6 witness. -/
def exDB6 : DB :=
  { products := [exProd6], sales := [], purchase_orders := [],
    inventory_logs := [], next_sale_id := 1, next_po_id := 1, next_po_item_id := 1 }

/-- User for the C6 witness. -/
def exUser6 : User := { id := 1, credit_card_fee_flat := 0 }

/-- Empty-items payload for the C6 witness. -/
def exSpecEmpty6 : SaleCreate :=
  { sale_date := none, notes := none, sale_type := none,
    items := [] }

/-- Payload referencing the nonexistent product 99, second item, for the
C6 witness. -/
def exSpecBad6 : SaleCreate :=
  { sale_date := none, notes := none, sale_type := none,
    items := [{ product_id := 1, quantity := 2, unit_price := 5 },
              { product_id := 99, quantity := 1, unit_price := 5 }] }

/-- Product for the C7 witness. -/
def exProd7 : Product :=
  { id := 1, user_id := 1, name := "B", unit_cost := none,
    quantity_in_stock := 5, sale_price := none, category_id := none,
    category := none }

/-- Store for the C7 witness. -/
def exDB7 : DB :=
  { products := [exProd7], sales := [], purchase_orders := [],
    inventory_logs := [], next_sale_id := 1, next_po_id := 1, next_po_item_id := 1 }

/-- User for the C7 witness. -/
def exUser7 : User := { id := 1, credit_card_fee_flat := 0 }

/-- Payload for the C7 witness: one item of 3 units. -/
def exSpec7 : SaleCreate :=
  { sale_date := none, notes := none, sale_type := none,
    items := [{ product_id := 1, quantity := 3, unit_price := 12 }] }

/-- Category for the C8 witness: stored default sale price 25. -/
def catE : Category := .mk 4 1 "E" none (some 25) none [] none

/-- Member product with an explicit sale-price override, C8 witness. -/
def pE1 : Product :=
  { id := 1, user_id := 1, name := "E1", unit_cost := none,
    quantity_in_stock := 0, sale_price := some 30, category_id := some 4,
    category := some catE }

/-- Member product inheriting (NULL override), C8 witness. -/
def pE2 : Product :=
  { id := 2, user_id := 1, name := "E2", unit_cost := none,
    quantity_in_stock := 0, sale_price := none, category_id := some 4,
    category := some catE }

/-- Product of another category, C8 witness. -/
def pE3 : Product :=
  { id := 3, user_id := 1, name := "E3", unit_cost := none,
    quantity_in_stock := 0, sale_price := none, category_id := some 5,
    category := none }

/-- PATCH payload for the C8 witness: new default sale price 40,
propagate without force. -/
def payload8 : CategoryUpdate :=
  { name := none, description := none, default_sale_price := some 40,
    base_purchase_price := none, purchase_tiers := none,
    propagate_prices := false, propagate_sale_price := true,
    propagate_purchase_cost := false }

/-- Witness instantiation of the C8 theorem: the override keeps 30, the
inheriting product gets 40, the foreign product is untouched. -/
theorem cascade_semantics_witness :
    ∃ cat' ps', update_category catE [pE1, pE2, pE3] payload8 = .ok (cat', ps') ∧
      (∃ p', ps'.get? 0 = some p' ∧ p'.sale_price = some 30) ∧
      (∃ p', ps'.get? 1 = some p' ∧ p'.sale_price = some 40) ∧
      ps'.get? 2 = some pE3 := by
  obtain ⟨cat', ps', hok, hover, hinh, hnon⟩ :=
    (cascade_semantics catE [pE1, pE2, pE3] payload8 rfl).2.1 rfl rfl 40 rfl
      (by decide) rfl
  obtain ⟨p1, hp1, hsp1, _, _⟩ := hover 0 pE1 rfl (by decide)
  obtain ⟨p2, hp2, hsp2, _⟩ := hinh 1 pE2 rfl (by decide) rfl
  refine ⟨cat', ps', hok, ⟨p1, hp1, ?_⟩, ⟨p2, hp2, hsp2⟩, hnon 2 pE3 rfl (by decide)⟩
  rw [hsp1]
  rfl

/-- Product and store for the C9 witness. -/
def exProd9 : Product :=
  { id := 1, user_id := 7, name := "F", unit_cost := none,
    quantity_in_stock := 5, sale_price := none, category_id := none,
    category := none }

/-- Store for the C9 witness. -/
def exDB9 : DB :=
  { products := [exProd9], sales := [], purchase_orders := [],
    inventory_logs := [], next_sale_id := 1, next_po_id := 1, next_po_item_id := 1 }

/-- User with a configured flat credit-card fee of 1.50, C9 witness. -/
def exUser9 : User := { id := 7, credit_card_fee_flat := 3/2 }

/-- Sale payload for C9: a client may well send `payment_type`, but the
pydantic schema has no such field, so it is discarded during validation
and the payload the handler receives is this. -/
def exSpec9 : SaleCreate :=
  { sale_date := none, notes := none, sale_type := none,
    items := [{ product_id := 1, quantity := 1, unit_price := 10 }] }

/-- Surviving product for the C10 witness. -/
def exProd10 : Product :=
  { id := 1, user_id := 1, name := "G", unit_cost := none,
    quantity_in_stock := 5, sale_price := none, category_id := none,
    category := none }

/-- Sale whose only item references the deleted product 99, C10
witness. -/
def exSale10 : Sale :=
  { id := 1, user_id := 1, sale_date := none, notes := none,
    sale_type := some "individual", payment_type := some "cash",
    processing_fee := 0,
    items := [{ sale_id := 1, product_id := 99, quantity := 4, unit_price := 9 }] }

/-- Store for the C10 witness. -/
def exDB10 : DB :=
  { products := [exProd10], sales := [exSale10], purchase_orders := [],
    inventory_logs := [], next_sale_id := 2, next_po_id := 1, next_po_item_id := 1 }

/-- Edit payload whose new item references the surviving product, C10
witness. -/
def exUpd10 : SaleCreate :=
  { sale_date := none, notes := none, sale_type := none,
    items := [{ product_id := 1, quantity := 2, unit_price := 9 }] }

/-- User for the C10 witness. -/
def exUser10 : User := { id := 1, credit_card_fee_flat := 0 }


/-! ## Sale-route failure behaviour (the missing `payment_type` field) -/

/-- C2 (amended): the revert helper can only ever write ledger entries of
change type `revert_sale` (never `revert_sale_edit`); and none of its
work is ever committed by an update: for every update of an existing
sale the handler raises `AttributeError` reading the absent
`payment_type` payload field, and the committed store after the request
is exactly the pre-request store — no stock restoration, item
replacement or ledger entry persists. -/
theorem sale_update_always_rolls_back (db : DB) (sale_id : ℕ)
    (upd : SaleCreate) (u : User) :
    (∀ S, get_sale db.sales sale_id u.id = some S →
      update_sale db sale_id upd u = .error (.attributeError "payment_type")) ∧
    run_update_sale db sale_id upd u = db ∧
    (∀ (ps : List Product) (logs : List InventoryLog) (items : List SaleItem)
      (uid : ℕ) (tag : String) (e : InventoryLog),
      e ∈ (revert_inventory_for_items ps logs items uid tag).2 →
      e ∈ logs ∨ e.change_type = "revert_sale") := by
  refine ⟨?_, ?_, ?_⟩
  · intro S hS
    unfold update_sale
    rw [hS]
  · unfold run_update_sale update_sale
    cases get_sale db.sales sale_id u.id <;> rfl
  · intro ps logs items uid tag
    induction items generalizing ps logs with
    | nil => intro e he; exact Or.inl he
    | cons it rest ih =>
      intro e he
      cases hp : get_product ps it.product_id uid with
      | none =>
        simp only [revert_inventory_for_items, hp] at he
        exact ih ps logs e he
      | some p =>
        simp only [revert_inventory_for_items, hp] at he
        rcases ih _ _ e he with hin | htype
        · rcases List.mem_append.mp hin with h | h
          · exact Or.inl h
          · right
            simp only [List.mem_singleton] at h
            rw [h]
        · exact Or.inr htype

/-- C2 refutation at a concrete input (spec scenario C, post-creation
state): the edit request errors on the missing `payment_type` field and
commits nothing — the stock stays 2 (the claim says 2 + 3 - 1 = 4), and
the ledger gains no entry at all, in particular no `revert_sale_edit`
entry. -/
theorem sale_update_commits_nothing_at_input :
    update_sale exDB2 1 exUpd2 exUser2 = .error (.attributeError "payment_type") ∧
    (get_product (run_update_sale exDB2 1 exUpd2 exUser2).products 1 1).map
      Product.quantity_in_stock = some 2 ∧
    ¬ ((get_product (run_update_sale exDB2 1 exUpd2 exUser2).products 1 1).map
      Product.quantity_in_stock = some 4) ∧
    (run_update_sale exDB2 1 exUpd2 exUser2).inventory_logs = [] := by
  refine ⟨rfl, rfl, by decide, rfl⟩

/-- Witness instantiation of the C2 theorem at scenario C. -/
theorem sale_update_always_rolls_back_witness :
    update_sale exDB2 1 exUpd2 exUser2 = .error (.attributeError "payment_type") ∧
    run_update_sale exDB2 1 exUpd2 exUser2 = exDB2 ∧
    (⟨1, "revert_sale", 3, "t 1"⟩ : InventoryLog).change_type = "revert_sale" := by
  refine ⟨(sale_update_always_rolls_back exDB2 1 exUpd2 exUser2).1 exSale2 rfl,
    (sale_update_always_rolls_back exDB2 1 exUpd2 exUser2).2.1, ?_⟩
  have h := (sale_update_always_rolls_back exDB2 1 exUpd2 exUser2).2.2
    [exProd2] [] exSale2.items 1 "t" ⟨1, "revert_sale", 3, "t 1"⟩ (by decide)
  exact h.resolve_left (by decide)

/-- C6: evaluation of the create route's actual failure behaviour.  The
empty item list is rejected with the empty-sale 400 before anything else,
as claimed; but a payload whose item references the nonexistent product
99 fails with `AttributeError` on the missing `payment_type` field,
raised before any product lookup — never with the claimed
`ProductNotFound` — and in both cases the committed store is exactly the
pre-request store. -/
theorem create_sale_error_paths_at_input :
    create_sale exDB6 exSpecEmpty6 exUser6 = .error .emptySale ∧
    run_create_sale exDB6 exSpecEmpty6 exUser6 = (exDB6, none) ∧
    create_sale exDB6 exSpecBad6 exUser6 = .error (.attributeError "payment_type") ∧
    run_create_sale exDB6 exSpecBad6 exUser6 = (exDB6, none) ∧
    get_product exDB6.products 99 exUser6.id = none :=
  ⟨rfl, rfl, rfl, rfl, rfl⟩

/-- Product of the pre-existing (seeded) sale used to evaluate the delete
path for C7. -/
def exProd7b : Product :=
  { id := 1, user_id := 1, name := "B", unit_cost := none,
    quantity_in_stock := 2, sale_price := none, category_id := none,
    category := none }

/-- A sale that exists in the store without having gone through the
broken create route (e.g. seeded), C7. -/
def exSale7b : Sale :=
  { id := 1, user_id := 1, sale_date := none, notes := none,
    sale_type := some "individual", payment_type := some "cash",
    processing_fee := 0,
    items := [{ sale_id := 1, product_id := 1, quantity := 3, unit_price := 12 }] }

/-- Store containing the seeded sale, C7. -/
def exDB7b : DB :=
  { products := [exProd7b], sales := [exSale7b], purchase_orders := [],
    inventory_logs := [], next_sale_id := 2, next_po_id := 1, next_po_item_id := 1 }

/-- C7: the create half of the claimed round trip is unreachable — every
create request fails with `AttributeError` on the missing `payment_type`
field and commits nothing — while the delete half behaves exactly as
claimed on a sale that already exists in the store: stock restored by
+quantity (2 + 3 = 5), one `revert_sale` ledger entry, items and sale
removed. -/
theorem create_round_trip_unreachable_at_input :
    create_sale exDB7 exSpec7 exUser7 = .error (.attributeError "payment_type") ∧
    run_create_sale exDB7 exSpec7 exUser7 = (exDB7, none) ∧
    ((delete_sale exDB7b 1 exUser7).toOption.map
      (fun d => (get_product d.products 1 1).map Product.quantity_in_stock)) =
      some (some 5) ∧
    ((delete_sale exDB7b 1 exUser7).toOption.map (fun d => d.inventory_logs)) =
      some [{ product_id := 1, change_type := "revert_sale", change_amount := 3,
              note := "Sale deleted 1" }] ∧
    ((delete_sale exDB7b 1 exUser7).toOption.map (fun d => d.sales)) = some [] := by
  refine ⟨rfl, rfl, by decide, by decide, by decide⟩

/-- A stored sale row carrying the credit-card payment type, as
`_recalc_processing_fee` expects one, C9. -/
def exSaleCC : Sale :=
  { id := 1, user_id := 7, sale_date := none, notes := none,
    sale_type := some "individual", payment_type := some "credit_card",
    processing_fee := 0, items := [] }

/-- A stored sale row with the cash payment type, C9. -/
def exSaleCash : Sale :=
  { id := 2, user_id := 7, sale_date := none, notes := none,
    sale_type := some "individual", payment_type := some "cash",
    processing_fee := 0, items := [] }

/-- C9: no processing fee is ever stored, because every create request
fails with `AttributeError` on the missing `payment_type` field before a
sale row exists; the helper `_recalc_processing_fee` — which the claim
describes — does map a credit-card sale to the configured flat fee 1.50
and any other payment type to 0.00, but is unreachable from the
handler. -/
theorem processing_fee_never_stored_at_input :
    create_sale exDB9 exSpec9 exUser9 = .error (.attributeError "payment_type") ∧
    run_create_sale exDB9 exSpec9 exUser9 = (exDB9, none) ∧
    (recalc_processing_fee exSaleCC (3/2)).processing_fee = 3/2 ∧
    (recalc_processing_fee exSaleCash (3/2)).processing_fee = 0 := by
  refine ⟨rfl, rfl, ?_, ?_⟩
  · unfold recalc_processing_fee
    dsimp only
    rw [if_pos (by decide)]
    exact round2_cents ⟨150, by norm_num⟩
  · unfold recalc_processing_fee
    dsimp only
    rw [if_neg (by decide)]

/-- C10 (amended): during sale delete, an existing item whose product no
longer exists (or belongs to another user) is silently skipped in the
revert phase — its stock is not restored, no ledger entry is written for
it, and the delete still succeeds; the update path would skip it the
same way in-session, but every update then fails with `AttributeError`
on the absent `payment_type` payload field and rolls back, so an update
never succeeds and persists nothing. -/
theorem revert_skip_on_delete_and_update_error
    (db : DB) (u : User) (sid : ℕ) (S : Sale) (itm : SaleItem) (upd : SaleCreate)
    (hS : get_sale db.sales sid u.id = some S)
    (hitems : S.items = [itm])
    (hmiss : get_product db.products itm.product_id u.id = none) :
    (∃ db', delete_sale db sid u = .ok db' ∧
      db'.products = db.products ∧
      db'.inventory_logs = db.inventory_logs ∧
      db'.sales = db.sales.filter (fun t => t.id ≠ S.id)) ∧
    update_sale db sid upd u = .error (.attributeError "payment_type") ∧
    run_update_sale db sid upd u = db := by
  refine ⟨?_, ?_, ?_⟩
  · have hrev : revert_inventory_for_items db.products db.inventory_logs S.items
        u.id "Sale deleted" = (db.products, db.inventory_logs) := by
      rw [hitems]
      simp only [revert_inventory_for_items, hmiss]
    unfold delete_sale
    rw [hS]
    dsimp only
    rw [hrev]
    exact ⟨_, rfl, rfl, rfl, rfl⟩
  · unfold update_sale
    rw [hS]
  · unfold run_update_sale update_sale
    cases get_sale db.sales sid u.id <;> rfl

/-- C10 refutation at a concrete input: editing the sale whose item
references the deleted product 99 does not succeed — it raises
`AttributeError` and the committed store is unchanged. -/
theorem sale_update_never_succeeds_at_input :
    update_sale exDB10 1 exUpd10 exUser10 = .error (.attributeError "payment_type") ∧
    run_update_sale exDB10 1 exUpd10 exUser10 = exDB10 :=
  ⟨rfl, rfl⟩

/-- Witness instantiation of the C10 theorem. -/
theorem revert_skip_on_delete_and_update_error_witness :
    (∃ db', delete_sale exDB10 1 exUser10 = .ok db' ∧
      db'.products = exDB10.products ∧
      db'.inventory_logs = exDB10.inventory_logs) ∧
    update_sale exDB10 1 exUpd10 exUser10 = .error (.attributeError "payment_type") := by
  obtain ⟨⟨db', h1, h2, h3, h4⟩, h5, h6⟩ := revert_skip_on_delete_and_update_error
    exDB10 exUser10 1 exSale10
    { sale_id := 1, product_id := 99, quantity := 4, unit_price := 9 } exUpd10
    rfl rfl rfl
  exact ⟨⟨db', h1, h2, h3⟩, h5⟩

end Inventory
